import Mathlib

/-!
Verification of the FOA ingestion and semantic tagging pipeline (src/main.py).

The development shallowly embeds the text-processing core of the program:

* HTML input is abstracted as the data the extractors actually consume: the
  text of the first h1 element (if any), the text of the title element
  (if any), and the full visible text returned by soup.get_text().
* Each regular expression of the source is embedded as a dedicated matcher
  over lists of characters implementing Python re.search semantics
  (leftmost starting position, greedy quantifiers with backtracking) for
  that concrete pattern.
* dateutil.parser.parse followed by .isoformat() is modelled by
  parseDateISO for the purely numeric day/month/year grammar the date
  regexes capture (the only shapes the program ever feeds to it).
* Python's builtin hash (process-seeded for strings) is passed as an
  explicit function parameter pyhash; a concrete stand-in hashModel is used
  for closed evaluations.
-/

/-- Python regex class \s over ASCII: space, tab, newline, carriage return,
vertical tab and form feed.  Also the character set stripped by str.strip(). -/
def isPySpace (c : Char) : Bool :=
  c = ' ' || c = '\t' || c = '\n' || c = '\r' || c.toNat = 11 || c.toNat = 12

/-- Character class [:\s] used between a label and a date in the source's
date and section patterns. -/
def isColonSpace (c : Char) : Bool := c = ':' || isPySpace c

/-- Whether the second list starts with the first. -/
def charsStartWith : List Char → List Char → Bool
  | [], _ => true
  | _ :: _, [] => false
  | a :: as, b :: bs => a = b && charsStartWith as bs

/-- Whether the first list occurs contiguously inside the second. -/
def charsContain (needle : List Char) : List Char → Bool
  | [] => charsStartWith needle []
  | c :: cs => charsStartWith needle (c :: cs) || charsContain needle cs

/-- Python substring test needle in hay, as used by the source for keyword
and host checks. -/
def pyIn (needle hay : String) : Bool := charsContain needle.toList hay.toList

/-- Python str.lower(), over ASCII letters. -/
def lowerStr (s : String) : String := ⟨s.data.map Char.toLower⟩

/-- Python x or d on an optional string: None and the empty string are falsy. -/
def pyOrOpt (o : Option String) (d : String) : String :=
  match o with
  | some s => if s = "" then d else s
  | none => d

/-- Python str.strip(): drop leading and trailing whitespace characters. -/
def trimChars (l : List Char) : List Char :=
  ((l.dropWhile isPySpace).reverse.dropWhile isPySpace).reverse

/-- Case-insensitive (when ci is true) literal match of a pattern at the head
of the text; returns the consumed text characters and the remainder. -/
def litMatch (ci : Bool) : List Char → List Char → Option (List Char × List Char)
  | [], l => some ([], l)
  | _ :: _, [] => none
  | p :: ps, c :: cs =>
    if (if ci then p.toLower = c.toLower else p = c) then
      (litMatch ci ps cs).map (fun pr => (c :: pr.1, pr.2))
    else none

/-- Leftmost occurrence of '/' followed by one or more digits followed by '/',
anchored at the head of the list: the regex /(\d+)/ tried at one position.
Greedy \d+ is complete here: a shorter digit run would have to be followed
by '/' where a digit stands. -/
def urlIdHit (l : List Char) : Option (List Char) :=
  match l with
  | '/' :: rest =>
    let ds := rest.takeWhile Char.isDigit
    if ds.isEmpty then none
    else
      match rest.drop ds.length with
      | '/' :: _ => some ds
      | _ => none
  | _ => none

/-- re.search for the source pattern /(\d+)/ over the origin URL
(FOAIngester._generate_foa_id, src/main.py line 215). -/
def urlIdSearch : List Char → Option (List Char)
  | [] => none
  | c :: cs =>
    match urlIdHit (c :: cs) with
    | some ds => some ds
    | none => urlIdSearch cs

/-- Greedy backtracking over a class run: try dropping hi characters first,
then hi-1, ..., down to lo, feeding each remainder to the continuation. -/
def tryDropsFrom (cap : List Char → Option (List Char × List Char))
    (l : List Char) (lo : Nat) : Nat → Option (List Char × List Char)
  | 0 => if lo = 0 then cap l else none
  | hi + 1 =>
    if hi + 1 < lo then none
    else
      match cap (l.drop (hi + 1)) with
      | some r => some r
      | none => tryDropsFrom cap l lo hi

/-- One attempt of a labeled pattern label ++ class-run ++ capture at the head
of the text: match the label case-insensitively, then a greedy run of sepCls
characters (at least minSep of them, backtracking to shorter runs), then the
capture. -/
def hitLabeled (label : List Char) (minSep : Nat) (sepCls : Char → Bool)
    (cap : List Char → Option (List Char × List Char)) (l : List Char) :
    Option (List Char × List Char) :=
  match litMatch true label l with
  | none => none
  | some pr =>
    let rest := pr.2
    let n := (rest.takeWhile sepCls).length
    if n < minSep then none else tryDropsFrom cap rest minSep n

/-- re.search for a labeled pattern: try every starting position left to
right, returning the first capture. -/
def searchLabeled (label : List Char) (minSep : Nat) (sepCls : Char → Bool)
    (cap : List Char → Option (List Char × List Char)) :
    List Char → Option (List Char)
  | [] => (hitLabeled label minSep sepCls cap []).map (·.1)
  | c :: cs =>
    match (hitLabeled label minSep sepCls cap (c :: cs)).map (·.1) with
    | some g => some g
    | none => searchLabeled label minSep sepCls cap cs

/-- Alternatives for \d{1,2} at the head of the text, longest first
(greedy with backtracking). -/
def take12 (l : List Char) : List (List Char × List Char) :=
  match l with
  | c1 :: c2 :: rest =>
    if c1.isDigit && c2.isDigit then [([c1, c2], rest), ([c1], c2 :: rest)]
    else if c1.isDigit then [([c1], c2 :: rest)] else []
  | [c1] => if c1.isDigit then [([c1], [])] else []
  | [] => []

/-- Date separator class: slash or dash. -/
def takeDateSep (l : List Char) : Option (Char × List Char) :=
  match l with
  | c :: cs => if c = '/' || c = '-' then some (c, cs) else none
  | [] => none

/-- Capture group (digits{1,2} sep digits{1,2} sep digits{2,4}), where sep is slash or dash, of the source's date
patterns, anchored at the head of the text, with the regex engine's
backtracking priorities (two digits preferred over one; the trailing year is
greedy and final, so it takes up to four digits and needs at least two). -/
def matchDateAt (l : List Char) : Option (List Char × List Char) :=
  take12 l |>.findSome? fun pr1 =>
    (takeDateSep pr1.2).bind fun sp1 =>
      take12 sp1.2 |>.findSome? fun pr2 =>
        (takeDateSep pr2.2).bind fun sp2 =>
          let y := (sp2.2.takeWhile Char.isDigit).take 4
          if y.length ≥ 2 then
            some (pr1.1 ++ sp1.1 :: pr2.1 ++ sp2.1 :: y, sp2.2.drop y.length)
          else none

/-- re.search for a date pattern label[:\s]+(digits{1,2} sep digits{1,2} sep digits{2,4}), where sep is slash or dash,
(src/main.py lines 70-75 and 145-150). -/
def dateSearch (label : String) (text : List Char) : Option (List Char) :=
  searchLabeled label.toList 1 isColonSpace matchDateAt text

/-- Single-line capture ([^\n]+): the maximal nonempty run of non-newline
characters at the head of the text. -/
def lineCapture (l : List Char) : Option (List Char × List Char) :=
  let t := l.takeWhile (fun c => c ≠ '\n')
  if t.isEmpty then none else some (t, l.drop t.length)

/-- Continuation lines (?:\n[^\n]+)*, matched greedily and maximally (the
group is at the end of the pattern, so the star never gives back). The fuel
argument bounds the recursion by the input length. -/
def contLines : Nat → List Char → List Char × List Char
  | 0, l => ([], l)
  | fuel + 1, l =>
    match l with
    | '\n' :: rest =>
      let ln := rest.takeWhile (fun c => c ≠ '\n')
      if ln.isEmpty then ([], l)
      else
        let nxt := contLines fuel (rest.drop ln.length)
        ('\n' :: (ln ++ nxt.1), nxt.2)
    | _ => ([], l)

/-- Multi-line capture ([^\n]+(?:\n[^\n]+)*) of FOAIngester._extract_section
(src/main.py line 202), anchored at the head of the text. -/
def captureLines (l : List Char) : Option (List Char × List Char) :=
  let first := l.takeWhile (fun c => c ≠ '\n')
  if first.isEmpty then none
  else
    let r := l.drop first.length
    let nxt := contLines r.length r
    some (first ++ nxt.1, nxt.2)

/-- Tokens of a captured date string, split on '/' and '-'. -/
def splitDateTokens : List Char → List (List Char)
  | [] => [[]]
  | c :: cs =>
    if c = '/' || c = '-' then [] :: splitDateTokens cs
    else
      match splitDateTokens cs with
      | t :: ts => (c :: t) :: ts
      | [] => [[c]]

/-- Numeric value of a digit string. -/
def digitsVal (l : List Char) : Nat :=
  l.foldl (fun a c => a * 10 + (c.toNat - 48)) 0

/-- Gregorian leap year rule, as used by datetime for day validation. -/
def isLeapYear (y : Nat) : Bool :=
  y % 4 = 0 && (y % 100 ≠ 0 || y % 400 = 0)

/-- Number of days in a month, as validated by datetime. -/
def daysInMonth (y m : Nat) : Nat :=
  if m = 2 then (if isLeapYear y then 29 else 28)
  else if m = 4 || m = 6 || m = 9 || m = 11 then 30
  else 31

/-- Model of dateutil's two-digit-year windowing (parserinfo.convertyear):
a year below 100 written without its century is placed in the century of the
reference year and pulled back by one century when it lands 50 or more years
in the future.  The reference year (time-dependent in dateutil) is fixed
at 2025 here; no claim depends on two-digit years. -/
def convertYear (y : Nat) (centurySpecified : Bool) : Nat :=
  if y < 100 && !centurySpecified then
    let y1 := y + 2000
    if y1 ≥ 2075 then y1 - 100 else y1
  else y

/-- Zero-padded decimal rendering. -/
def pad2 (n : Nat) : String := if n < 10 then "0" ++ toString n else toString n

/-- Zero-padded four-digit year, as produced by datetime.isoformat(). -/
def pad4 (n : Nat) : String :=
  if n < 10 then "000" ++ toString n
  else if n < 100 then "00" ++ toString n
  else if n < 1000 then "0" ++ toString n
  else toString n

/-- Model of dateutil.parser.parse followed by datetime.isoformat() on the
purely numeric strings captured by the date regexes (three numeric tokens
separated by '/' or '-').  Resolution order for unlabeled numbers with
default settings: a first token above 31 (or longer than two digits) is the
year; otherwise a first token above 12 makes the order day/month/year;
otherwise month/day/year.  Invalid dates raise in the source and yield none
here. -/
def parseDateISO (s : String) : Option String :=
  match splitDateTokens s.toList with
  | [ta, tb, tc] =>
    if ta.isEmpty || tb.isEmpty || tc.isEmpty then none
    else if !(ta.all Char.isDigit && tb.all Char.isDigit && tc.all Char.isDigit) then none
    else
      let a := digitsVal ta
      let b := digitsVal tb
      let c := digitsVal tc
      let ymd : Nat × Nat × Nat × Bool :=
        if a > 31 || ta.length > 2 then (a, b, c, ta.length = 4)
        else if a > 12 then (c, b, a, tc.length = 4)
        else (c, a, b, tc.length = 4)
      let y := convertYear ymd.1 ymd.2.2.2
      let m := ymd.2.1
      let d := ymd.2.2.1
      if 1 ≤ y && y ≤ 9999 && 1 ≤ m && m ≤ 12 && 1 ≤ d && d ≤ daysInMonth y m then
        some (pad4 y ++ "-" ++ pad2 m ++ "-" ++ pad2 d ++ "T00:00:00")
      else none
  | _ => none

/-- Abstraction of the parsed HTML page: exactly the data the extractors read
from BeautifulSoup — the text of the first h1 element, the text of the title
element, and the full visible text soup.get_text(). -/
structure Html where
  h1Text : Option String
  titleText : Option String
  bodyText : String
deriving DecidableEq

/-- State of an FOAIngester instance: the origin URL and the lowercase host
component derived from it at construction. -/
structure FOAIngester where
  url : String
  domain : String
deriving DecidableEq

/-- Semantic tag sets attached by the tagger: one list of labels per
ontology category. -/
structure SemTags where
  research_domains : List String
  methods : List String
  populations : List String
  sponsor_themes : List String
deriving DecidableEq

/-- The extracted FOA record.  The nine scalar fields are the keys written by
extract_grants_gov / extract_nsf (src/main.py lines 116-126 and 184-194);
semantic_tags is none until SemanticTagger.tag has run, mirroring the key
being absent from the dict. -/
structure FOARecord where
  foa_id : String
  title : String
  agency : String
  open_date : String
  close_date : String
  eligibility_text : String
  program_description : String
  award_range : String
  source_url : String
  semantic_tags : Option SemTags
deriving DecidableEq

/-- Values stored in the record viewed as a Python dict. -/
inductive FieldVal where
  | str (s : String)
  | tagsVal (t : List (String × List String))
deriving DecidableEq

/-- The record as the Python dict the program builds: nine scalar keys in
construction order, plus the semantic_tags key once tagging has added it. -/
def toDict (r : FOARecord) : List (String × FieldVal) :=
  [("foa_id", .str r.foa_id), ("title", .str r.title), ("agency", .str r.agency),
   ("open_date", .str r.open_date), ("close_date", .str r.close_date),
   ("eligibility_text", .str r.eligibility_text),
   ("program_description", .str r.program_description),
   ("award_range", .str r.award_range), ("source_url", .str r.source_url)] ++
  (match r.semantic_tags with
   | some tg =>
     [("semantic_tags",
       .tagsVal [("research_domains", tg.research_domains), ("methods", tg.methods),
                 ("populations", tg.populations), ("sponsor_themes", tg.sponsor_themes)])]
   | none => [])

/-- The ten field names the specification declares for a finished record. -/
def declaredFields : List String :=
  ["foa_id", "title", "agency", "open_date", "close_date", "eligibility_text",
   "program_description", "award_range", "source_url", "semantic_tags"]

/-- Role of a date pattern in the generic profile. -/
inductive DateRole where
  | roleOpen
  | roleClose
deriving DecidableEq

/-- Role assignment by keyword match on the pattern's own label text
(src/main.py lines 82-87): a label containing open or post feeds open_date,
else a label containing close or due feeds close_date.  The fixed regex tail
shared by all four patterns contains none of the four keywords, so checking
the label alone is equivalent to checking pattern.lower(). -/
def roleOf (label : String) : Option DateRole :=
  let pl := lowerStr label
  if pyIn "open" pl || pyIn "post" pl then some .roleOpen
  else if pyIn "close" pl || pyIn "due" pl then some .roleClose
  else none

/-- Open and close dates accumulated by the generic profile's date loop. -/
structure DState where
  openDate : Option String
  closeDate : Option String
deriving DecidableEq

/-- One iteration of the generic date loop (src/main.py lines 77-89): search
the pattern, parse the captured string (a parse failure is swallowed by the
try/except), and store the ISO form under the pattern's role only when that
role is still unset. -/
def dateStep (text : List Char) (st : DState) (label : String) : DState :=
  match dateSearch label text with
  | none => st
  | some cap =>
    match parseDateISO cap.asString with
    | none => st
    | some iso =>
      match roleOf label with
      | some .roleOpen => if st.openDate = none then { st with openDate := some iso } else st
      | some .roleClose => if st.closeDate = none then { st with closeDate := some iso } else st
      | none => st

/-- The generic profile's ordered date labels (src/main.py lines 70-75). -/
def genericDateLabels : List String := ["Open Date", "Post Date", "Close Date", "Due Date"]

/-- The full generic date scan: fold the ordered pattern list over the empty
state. -/
def scanDates (labels : List String) (text : List Char) : DState :=
  labels.foldl (dateStep text) ⟨none, none⟩

/-- One iteration of the NSF date loop (src/main.py lines 152-160): every
pattern feeds close_date, first successful parse wins. -/
def nsfDateStep (text : List Char) (st : Option String) (label : String) : Option String :=
  match dateSearch label text with
  | none => st
  | some cap =>
    match parseDateISO cap.asString with
    | none => st
    | some iso => if st = none then some iso else st

/-- The NSF profile's ordered date labels (src/main.py lines 145-150). -/
def nsfDateLabels : List String :=
  ["Full Proposal Deadline", "Proposal Deadline", "Deadline", "Due"]

/-- The NSF date scan: close_date only; open_date has no assignment in this
path. -/
def scanNSFDates (labels : List String) (text : List Char) : Option String :=
  labels.foldl (nsfDateStep text) none

/-- First keyword whose section pattern matches, with the captured span
stripped (FOAIngester._extract_section loop, src/main.py lines 199-209). -/
def rawSection (kws : List String) (text : List Char) : Option (List Char) :=
  match kws with
  | [] => none
  | k :: ks =>
    match searchLabeled k.toList 0 isColonSpace captureLines text with
    | some cap => some (trimChars cap)
    | none => rawSection ks text

/-- FOAIngester._extract_section (src/main.py lines 196-210): the stripped
captured span, truncated to its first 500 characters plus an ellipsis marker
when longer than 500 characters. -/
def extract_section (kws : List String) (text : String) : Option String :=
  (rawSection kws text.toList).map fun sec =>
    if sec.length > 500 then (sec.take 500).asString ++ "..." else sec.asString

/-- The generic profile's ordered agency labels (src/main.py lines 52-56). -/
def agencyLabels : List String := ["Agency:", "Funding Agency:", "Department:"]

/-- First agency pattern that matches, with the captured remainder of the
line stripped (src/main.py lines 57-62); none when no pattern matches. -/
def agencyResolve (text : List Char) : Option String :=
  agencyLabels.findSome? fun label =>
    (searchLabeled label.toList 0 isPySpace lineCapture text).map
      fun cap => (trimChars cap).asString

/-- FOAIngester._infer_agency_from_url (src/main.py lines 223-232). -/
def infer_agency_from_url (domain : String) : String :=
  if pyIn "grants.gov" domain then "Grants.gov"
  else if pyIn "nsf.gov" domain then "National Science Foundation (NSF)"
  else if pyIn "nih.gov" domain then "National Institutes of Health (NIH)"
  else "Unknown Agency"

/-- FOAIngester._generate_foa_id (src/main.py lines 212-221): a digit run
enclosed by slashes in the URL wins; otherwise the absolute value of the
title's hash modulo 100000.  pyhash stands for Python's builtin string hash,
which is fixed within a process. -/
def generate_foa_id (pyhash : String → Int) (title url : String) : String :=
  match urlIdSearch url.toList with
  | some ds => "FOA-" ++ ds.asString
  | none => "FOA-" ++ toString ((pyhash title).natAbs % 100000)

/-- Title extraction shared by both profiles (src/main.py lines 46-48 and
133-135): first h1 element if present, else the title element, else the
sentinel; get_text(strip=True) is modelled as stripping. -/
def extractTitle (h : Html) : String :=
  match h.h1Text.orElse (fun _ => h.titleText) with
  | some t => (trimChars t.toList).asString
  | none => "N/A"

/-- Backtracking matcher: all ways to match at the head of the text, as
(consumed, remainder) pairs in the engine's priority order. -/
def Matcher := List Char → List (List Char × List Char)

/-- Literal matcher (ci selects case-insensitive matching, as under re.I). -/
def mlit (ci : Bool) (s : String) : Matcher := fun l =>
  match litMatch ci s.toList l with
  | some pr => [pr]
  | none => []

/-- Character-class repetition with greedy alternatives: between lo and hi
characters satisfying p, longest first; hi of none means unbounded. -/
def mcls (p : Char → Bool) (lo : Nat) (hi : Option Nat) : Matcher := fun l =>
  let run := (l.takeWhile p).length
  let n := match hi with | some h => min h run | none => run
  if lo ≤ n then (List.range (n + 1 - lo)).map (fun i => (l.take (n - i), l.drop (n - i)))
  else []

/-- Sequencing of matchers, preserving backtracking order. -/
def mseq (a b : Matcher) : Matcher := fun l =>
  (a l).flatMap fun pr => (b pr.2).map fun qr => (pr.1 ++ qr.1, qr.2)

/-- Ordered alternation of matchers. -/
def malt (a b : Matcher) : Matcher := fun l => a l ++ b l

/-- Greedy option: try the matcher first, then the empty match. -/
def mopt (a : Matcher) : Matcher := fun l => a l ++ [([], l)]

/-- Sequence a list of matchers in order. -/
def mseqs (ms : List Matcher) : Matcher :=
  ms.foldr mseq (fun l => [([], l)])

/-- re.search for a whole-match pattern: leftmost position at which the
matcher succeeds, returning group(0). -/
def matcherSearch (m : Matcher) : List Char → Option (List Char)
  | [] => ((m []).head?).map (·.1)
  | c :: cs =>
    match ((m (c :: cs)).head?).map (·.1) with
    | some g => some g
    | none => matcherSearch m cs

/-- Character class for monetary digits and thousands separators. -/
def isDigitComma (c : Char) : Bool := c.isDigit || c = ','

/-- Optional fractional part (?:\.\d+)? of the monetary patterns. -/
def moneyFrac : Matcher := mopt (mseq (mlit false ".") (mcls Char.isDigit 1 none))

/-- First monetary pattern of src/main.py lines 102 and 171: a dollar amount,
optional whitespace, an optional to or dash joiner, optional whitespace, an
optional second dollar sign, and a second amount. -/
def awardPat1 : Matcher :=
  mseqs [mlit false "$", mcls isDigitComma 1 none, moneyFrac,
         mcls isPySpace 0 none, mopt (malt (mlit true "to") (mlit false "-")),
         mcls isPySpace 0 none, mopt (mlit false "$"),
         mcls isDigitComma 1 none, moneyFrac]

/-- Second monetary pattern: up to followed by a dollar amount. -/
def awardPat2 : Matcher :=
  mseqs [mlit true "up to $", mcls isDigitComma 1 none, moneyFrac]

/-- Third monetary pattern: a dollar amount followed by a magnitude word. -/
def awardPat3 : Matcher :=
  mseqs [mlit false "$", mcls isDigitComma 1 none, moneyFrac,
         mcls isPySpace 0 none,
         malt (mlit true "million") (malt (mlit true "M") (malt (mlit true "thousand") (mlit true "K")))]

/-- The award-range loop (src/main.py lines 101-111 and 170-180): three
monetary patterns in fixed order, first whole match anywhere wins. -/
def awardSearch (text : String) : Option String :=
  [awardPat1, awardPat2, awardPat3].findSome? fun m =>
    (matcherSearch m text.toList).map List.asString

/-- FOAIngester.extract_grants_gov (src/main.py lines 41-126). -/
def FOAIngester.extract_grants_gov (ing : FOAIngester) (pyhash : String → Int)
    (h : Html) : FOARecord :=
  let titleV := extractTitle h
  let text := h.bodyText.toList
  let agencyVar := match agencyResolve text with
    | some a => a
    | none => "N/A"
  let ds := scanDates genericDateLabels text
  let elig := extract_section ["eligibility", "eligible", "qualification"] h.bodyText
  let desc := extract_section ["description", "summary", "overview", "purpose"] h.bodyText
  let award := awardSearch h.bodyText
  { foa_id := generate_foa_id pyhash titleV ing.url
    title := titleV
    agency := if agencyVar ≠ "N/A" then agencyVar else infer_agency_from_url ing.domain
    open_date := pyOrOpt ds.openDate "N/A"
    close_date := pyOrOpt ds.closeDate "N/A"
    eligibility_text := pyOrOpt elig "N/A"
    program_description := pyOrOpt desc "N/A"
    award_range := pyOrOpt award "N/A"
    source_url := ing.url
    semantic_tags := none }

/-- FOAIngester.extract_nsf (src/main.py lines 128-194).  The local
open_date variable is initialised to None and never assigned in this path. -/
def FOAIngester.extract_nsf (ing : FOAIngester) (pyhash : String → Int)
    (h : Html) : FOARecord :=
  let titleV := extractTitle h
  let text := h.bodyText.toList
  let openDateVar : Option String := none
  let closeDateVar := scanNSFDates nsfDateLabels text
  let elig := extract_section ["eligibility", "eligible", "who may"] h.bodyText
  let desc := extract_section ["description", "summary", "overview", "synopsis"] h.bodyText
  let award := awardSearch h.bodyText
  { foa_id := generate_foa_id pyhash titleV ing.url
    title := titleV
    agency := "National Science Foundation (NSF)"
    open_date := pyOrOpt openDateVar "N/A"
    close_date := pyOrOpt closeDateVar "N/A"
    eligibility_text := pyOrOpt elig "N/A"
    program_description := pyOrOpt desc "N/A"
    award_range := pyOrOpt award "N/A"
    source_url := ing.url
    semantic_tags := none }

/-- FOAIngester.ingest (src/main.py lines 234-243) with the network fetch
abstracted away: profile selection on the lowercase host, NSF when the host
contains nsf.gov, the generic Grants.gov profile otherwise. -/
def FOAIngester.ingest (ing : FOAIngester) (pyhash : String → Int) (h : Html) : FOARecord :=
  if pyIn "nsf.gov" ing.domain then ing.extract_nsf pyhash h
  else ing.extract_grants_gov pyhash h

namespace SemanticTagger

/-- Research-domain ontology (src/main.py lines 250-257), in declaration
order. -/
def RESEARCH_DOMAINS : List (String × List String) :=
  [("health", ["health", "medical", "clinical", "biomedical", "disease", "treatment", "therapy"]),
   ("engineering", ["engineering", "technology", "innovation", "design", "manufacturing"]),
   ("science", ["science", "research", "discovery", "experiment", "laboratory"]),
   ("education", ["education", "learning", "teaching", "student", "curriculum"]),
   ("environment", ["environment", "climate", "sustainability", "energy", "renewable"]),
   ("social", ["social", "community", "society", "behavior", "policy", "public"])]

/-- Method ontology (src/main.py lines 259-264). -/
def METHODS : List (String × List String) :=
  [("experimental", ["experiment", "trial", "testing", "laboratory", "empirical"]),
   ("computational", ["computational", "modeling", "simulation", "algorithm", "data analysis"]),
   ("theoretical", ["theoretical", "theory", "mathematical", "conceptual"]),
   ("field_study", ["field study", "fieldwork", "survey", "observation", "ethnographic"])]

/-- Population ontology (src/main.py lines 266-271). -/
def POPULATIONS : List (String × List String) :=
  [("students", ["student", "undergraduate", "graduate", "postdoctoral"]),
   ("faculty", ["faculty", "professor", "researcher", "investigator"]),
   ("institutions", ["institution", "university", "college", "organization"]),
   ("communities", ["community", "public", "population", "society"])]

/-- The lowercase concatenation title, description, eligibility scanned by
the tagger (src/main.py line 275). -/
def tagText (r : FOARecord) : String :=
  lowerStr (r.title ++ " " ++ r.program_description ++ " " ++ r.eligibility_text)

/-- One ontology category: a label is attached when any of its keywords
occurs in the text (src/main.py lines 285-297). -/
def tagCategory (text : String) (table : List (String × List String)) : List String :=
  table.filterMap fun p => if p.2.any (fun k => pyIn k text) then some p.1 else none

/-- The sponsor-theme list built by the agency branch (src/main.py lines
299-306): exactly one label is appended to the empty list. -/
def sponsorFor (agency : String) : List String :=
  let a := lowerStr agency
  if pyIn "nsf" a then ["basic_research"]
  else if pyIn "nih" a then ["health_research"]
  else ["general"]

/-- The four tag sets computed by SemanticTagger.tag from the record's
fields. -/
def computeTags (r : FOARecord) : SemTags :=
  let text := tagText r
  { research_domains := tagCategory text RESEARCH_DOMAINS
    methods := tagCategory text METHODS
    populations := tagCategory text POPULATIONS
    sponsor_themes := sponsorFor r.agency }

/-- SemanticTagger.tag (src/main.py lines 273-309): store the computed tag
sets under the semantic_tags key and return the record. -/
def tag (r : FOARecord) : FOARecord :=
  { r with semantic_tags := some (computeTags r) }

end SemanticTagger

/-- Concrete stand-in for Python's process-seeded builtin string hash, used
to evaluate the pipeline on closed inputs.  The claims about identifier
generation hold for every choice of hash function. -/
def hashModel (s : String) : Int :=
  Int.ofNat (s.toList.foldl (fun a c => (a * 31 + c.toNat) % 1000003) 7)

/-- Specification-side statement of the sponsor-theme rule, written from the
claim's words: a case-insensitive three-way rule on the agency field. -/
def sponsorThemeSpec (agency : String) : String :=
  if pyIn "nsf" (lowerStr agency) then "basic_research"
  else if pyIn "nih" (lowerStr agency) then "health_research"
  else "general"

/-- charsStartWith decides list-prefix. -/
theorem charsStartWith_iff : ∀ (n h : List Char), charsStartWith n h = true ↔ n <+: h
  | [], h => by simp [charsStartWith, List.nil_prefix]
  | a :: as, [] => by simp [charsStartWith]
  | a :: as, b :: bs => by
    simp [charsStartWith, List.cons_prefix_cons, charsStartWith_iff as bs]

/-- charsContain decides contiguous containment. -/
theorem charsContain_iff : ∀ (n h : List Char), charsContain n h = true ↔ n <:+: h
  | n, [] => by simp [charsContain, charsStartWith_iff n [], List.prefix_nil, List.infix_nil]
  | n, c :: cs => by
    simp [charsContain, List.infix_cons_iff, charsStartWith_iff n (c :: cs),
      charsContain_iff n cs]

/-- pyIn decides contiguous containment of the character lists. -/
theorem pyIn_iff {k t : String} : pyIn k t = true ↔ k.toList <:+: t.toList :=
  charsContain_iff _ _

/-- Substring occurrence is preserved when the text grows around it. -/
theorem pyIn_mono {k t t' : String} (h1 : pyIn k t = true)
    (h2 : t.toList <:+: t'.toList) : pyIn k t' = true :=
  pyIn_iff.mpr ((pyIn_iff.mp h1).trans h2)

/-- One generic date iteration never changes an already-set close date. -/
theorem dateStep_close_some {text : List Char} {st : DState} {label v : String}
    (h : st.closeDate = some v) : (dateStep text st label).closeDate = some v := by
  unfold dateStep
  cases hs : dateSearch label text with
  | none => exact h
  | some cap =>
    dsimp only
    cases hp : parseDateISO cap.asString with
    | none => exact h
    | some iso =>
      dsimp only
      cases hr : roleOf label with
      | none => exact h
      | some role =>
        cases role with
        | roleOpen => by_cases ho : st.openDate = none <;> simp [ho, h]
        | roleClose => rw [h]; simp [h]

/-- The whole generic date fold never changes an already-set close date. -/
theorem scanFold_close_some : ∀ (labels : List String) (text : List Char)
    (st : DState) (v : String), st.closeDate = some v →
    (labels.foldl (dateStep text) st).closeDate = some v := by
  intro labels
  induction labels with
  | nil => intro text st v h; simpa using h
  | cons l ls ih =>
    intro text st v h
    simpa using ih text (dateStep text st l) v (dateStep_close_some h)

/-- C10: every record produced by the NSF profile has open_date equal to the
sentinel: the NSF date loop assigns only close_date (first successful parse
wins), and no open-role assignment exists in that path. -/
theorem nsf_open_date_always_na (ing : FOAIngester) (pyhash : String → Int) (h : Html) :
    (FOAIngester.extract_nsf ing pyhash h).open_date = "N/A" ∧
    (FOAIngester.extract_nsf ing pyhash h).close_date =
      pyOrOpt (scanNSFDates nsfDateLabels h.bodyText.toList) "N/A" :=
  ⟨rfl, rfl⟩

/-- C8: profile selection is total on the host stored by the ingester: a host
containing nsf.gov selects the NSF extraction with its fixed agency label,
any other host selects the generic Grants.gov extraction. -/
theorem profile_selection_total (ing : FOAIngester) (pyhash : String → Int) (h : Html) :
    (pyIn "nsf.gov" ing.domain = true →
      FOAIngester.ingest ing pyhash h = FOAIngester.extract_nsf ing pyhash h ∧
      (FOAIngester.ingest ing pyhash h).agency = "National Science Foundation (NSF)") ∧
    (pyIn "nsf.gov" ing.domain = false →
      FOAIngester.ingest ing pyhash h = FOAIngester.extract_grants_gov ing pyhash h) ∧
    (FOAIngester.ingest ing pyhash h = FOAIngester.extract_nsf ing pyhash h ∨
      FOAIngester.ingest ing pyhash h = FOAIngester.extract_grants_gov ing pyhash h) := by
  refine ⟨fun hc => ⟨?_, ?_⟩, fun hc => ?_, ?_⟩
  · simp [FOAIngester.ingest, hc]
  · simp [FOAIngester.ingest, hc, FOAIngester.extract_nsf]
  · simp [FOAIngester.ingest, hc]
  · by_cases hc : pyIn "nsf.gov" ing.domain <;> simp [FOAIngester.ingest, hc]

/-- Witness for C8 at concrete hosts. -/
theorem profile_selection_total_witness :
    FOAIngester.ingest ⟨"https://www.nsf.gov/pubs/2025/x", "www.nsf.gov"⟩ hashModel
        ⟨none, none, ""⟩ =
      FOAIngester.extract_nsf ⟨"https://www.nsf.gov/pubs/2025/x", "www.nsf.gov"⟩ hashModel
        ⟨none, none, ""⟩ ∧
    FOAIngester.ingest ⟨"https://www.grants.gov/y", "www.grants.gov"⟩ hashModel
        ⟨none, none, ""⟩ =
      FOAIngester.extract_grants_gov ⟨"https://www.grants.gov/y", "www.grants.gov"⟩ hashModel
        ⟨none, none, ""⟩ :=
  ⟨((profile_selection_total ⟨"https://www.nsf.gov/pubs/2025/x", "www.nsf.gov"⟩ hashModel
      ⟨none, none, ""⟩).1 (by decide)).1,
   (profile_selection_total ⟨"https://www.grants.gov/y", "www.grants.gov"⟩ hashModel
      ⟨none, none, ""⟩).2.1 (by decide)⟩

/-- C5: the tagger assigns sponsor_themes exactly one label, equal to the
three-way case-insensitive rule on the agency field. -/
theorem sponsor_three_way_rule (r : FOARecord) (tg : SemTags)
    (h : (SemanticTagger.tag r).semantic_tags = some tg) :
    tg.sponsor_themes = [sponsorThemeSpec r.agency] ∧ tg.sponsor_themes.length = 1 := by
  have h' : SemanticTagger.computeTags r = tg := by
    simpa [SemanticTagger.tag] using h
  subst h'
  refine ⟨?_, ?_⟩ <;>
    simp only [SemanticTagger.computeTags, SemanticTagger.sponsorFor, sponsorThemeSpec] <;>
    split_ifs <;> rfl

/-- Witness for C5 at a concrete record. -/
theorem sponsor_three_way_rule_witness :
    (SemanticTagger.computeTags
        ⟨"id", "t", "National Institutes of Health (NIH)", "N/A", "N/A", "N/A", "N/A", "N/A",
         "u", none⟩).sponsor_themes = ["health_research"] :=
  (sponsor_three_way_rule
    ⟨"id", "t", "National Institutes of Health (NIH)", "N/A", "N/A", "N/A", "N/A", "N/A",
     "u", none⟩ _ rfl).1.trans (by decide)

/-- C2 counterexample: the regex wants a digit run enclosed by slashes on
both sides, and the claimed URL has no trailing slash, so the identifier
falls back to the title hash instead of FOA-123456. -/
theorem foa_id_url_example_counterexample :
    urlIdSearch "https://www.grants.gov/search-results-detail/123456".toList = none ∧
    generate_foa_id hashModel "Climate Research Grant"
        "https://www.grants.gov/search-results-detail/123456" = "FOA-91270" ∧
    ("FOA-91270" : String) ≠ "FOA-123456" :=
  ⟨by decide, by decide, by decide⟩

/-- C2 amended: a numeric path segment enclosed by separators on both sides
yields FOA plus those digits (so the example URL needs its trailing slash),
and a URL without such a segment yields FOA-n with n below 100000 computed
from the title by the process's hash function. -/
theorem foa_id_generation_amended :
    (∀ (pyhash : String → Int) (title : String),
      generate_foa_id pyhash title "https://www.grants.gov/search-results-detail/123456/" =
        "FOA-123456") ∧
    (∀ (pyhash : String → Int) (title url : String), urlIdSearch url.toList = none →
      generate_foa_id pyhash title url = "FOA-" ++ toString ((pyhash title).natAbs % 100000) ∧
      (pyhash title).natAbs % 100000 ≤ 99999) := by
  constructor
  · intro ph t
    have hu : urlIdSearch "https://www.grants.gov/search-results-detail/123456/".toList =
        some ['1', '2', '3', '4', '5', '6'] := by decide
    unfold generate_foa_id
    rw [hu]
    rfl
  · intro ph t url hnone
    constructor
    · unfold generate_foa_id
      rw [hnone]
    · omega

/-- Witness for C2's amended statement at concrete inputs. -/
theorem foa_id_generation_amended_witness :
    generate_foa_id hashModel "Climate Research Grant"
        "https://www.grants.gov/search-results-detail/123456/" = "FOA-123456" ∧
    generate_foa_id hashModel "Climate Research Grant" "https://example.com" =
      "FOA-" ++ toString ((hashModel "Climate Research Grant").natAbs % 100000) :=
  ⟨foa_id_generation_amended.1 hashModel "Climate Research Grant",
   (foa_id_generation_amended.2 hashModel "Climate Research Grant" "https://example.com"
      (by decide)).1⟩

/-- C9: a captured date string that fails to parse leaves the scan state
unchanged in both date loops (the next pattern still runs on the same
state), as shown concretely by an invalid Close Date followed by a valid Due
Date; and the embedded extraction and tagging pipeline is a total function
of its inputs. -/
theorem date_parse_failure_silent :
    (∀ (text : List Char) (st : DState) (label : String) (cap : List Char),
      dateSearch label text = some cap → parseDateISO cap.asString = none →
      dateStep text st label = st) ∧
    (∀ (text : List Char) (st : Option String) (label : String) (cap : List Char),
      dateSearch label text = some cap → parseDateISO cap.asString = none →
      nsfDateStep text st label = st) ∧
    scanDates genericDateLabels "Close Date: 02/30/2025\nDue Date: 03/15/2025".toList =
      ⟨none, some "2025-03-15T00:00:00"⟩ ∧
    (∀ (ing : FOAIngester) (pyhash : String → Int) (h : Html),
      ∃ r : FOARecord, SemanticTagger.tag (FOAIngester.ingest ing pyhash h) = r) := by
  refine ⟨?_, ?_, by decide, fun ing ph h => ⟨_, rfl⟩⟩
  · intro text st label cap hs hp
    unfold dateStep
    rw [hs]
    dsimp only
    rw [hp]
  · intro text st label cap hs hp
    unfold nsfDateStep
    rw [hs]
    dsimp only
    rw [hp]

/-- Witness for C9 at a concrete failing date. -/
theorem date_parse_failure_silent_witness :
    dateStep "Close Date: 02/30/2025".toList ⟨none, none⟩ "Close Date" = ⟨none, none⟩ :=
  date_parse_failure_silent.1 "Close Date: 02/30/2025".toList ⟨none, none⟩ "Close Date"
    "02/30/2025".toList (by decide) (by decide)

/-- C3: a Due Date pattern (whose label contains due) matching 03/15/2025
sets an unset close_date to the ISO form 2025-03-15T00:00:00; an already-set
close_date is never overwritten by any later pattern of the list; and the
full generic extraction resolves the example text accordingly. -/
theorem close_date_due_first_match_wins :
    (∀ (t : List Char) (st : DState), st.closeDate = none →
      dateSearch "Due Date" t = some "03/15/2025".toList →
      (dateStep t st "Due Date").closeDate = some "2025-03-15T00:00:00") ∧
    (∀ (labels : List String) (t : List Char) (st : DState) (v : String),
      st.closeDate = some v → (labels.foldl (dateStep t) st).closeDate = some v) ∧
    (FOAIngester.extract_grants_gov ⟨"http://example.com", "example.com"⟩ hashModel
        ⟨none, none, "Due Date: 03/15/2025"⟩).close_date = "2025-03-15T00:00:00" := by
  refine ⟨?_, fun labels t st v h => scanFold_close_some labels t st v h, by decide⟩
  intro t st hclose hsearch
  unfold dateStep
  rw [hsearch]
  dsimp only
  have hp : parseDateISO "03/15/2025".toList.asString = some "2025-03-15T00:00:00" := by decide
  rw [hp]
  dsimp only
  have hr : roleOf "Due Date" = some .roleClose := by decide
  rw [hr]
  simp [hclose]

/-- Witness for C3 at a concrete text and state. -/
theorem close_date_due_first_match_wins_witness :
    (dateStep "Due Date: 03/15/2025".toList ⟨none, none⟩ "Due Date").closeDate =
      some "2025-03-15T00:00:00" ∧
    (genericDateLabels.foldl (dateStep "x".toList) ⟨none, some "kept"⟩).closeDate = some "kept" :=
  ⟨close_date_due_first_match_wins.1 "Due Date: 03/15/2025".toList ⟨none, none⟩ rfl (by decide),
   close_date_due_first_match_wins.2.1 genericDateLabels "x".toList ⟨none, some "kept"⟩ "kept" rfl⟩

/-- C6: a section text returned by the extractor never exceeds 503
characters: the stripped captured span is truncated to its first 500
characters plus the three-character ellipsis marker when longer than 500,
and returned whole otherwise. -/
theorem section_truncation_bound (kws : List String) (t : String) (s : String)
    (h : extract_section kws t = some s) :
    s.length ≤ 503 ∧
    ∃ raw : List Char, rawSection kws t.toList = some raw ∧
      s = (if raw.length > 500 then (raw.take 500).asString ++ "..." else raw.asString) := by
  unfold extract_section at h
  cases hr : rawSection kws t.toList with
  | none => rw [hr] at h; simp at h
  | some raw =>
    rw [hr] at h
    have h' : (if raw.length > 500 then (raw.take 500).asString ++ "..." else raw.asString)
        = s := by simpa using h
    refine ⟨?_, raw, rfl, h'.symm⟩
    rw [← h']
    by_cases hl : raw.length > 500
    · rw [if_pos hl]
      have h1 : ((raw.take 500).asString ++ "...").length = (raw.take 500).length + 3 := by
        rw [String.length_append]; rfl
      rw [h1, List.length_take]
      omega
    · rw [if_neg hl]
      have h2 : (raw.asString).length = raw.length := rfl
      omega

/-- Witness for C6 at a concrete section. -/
theorem section_truncation_bound_witness :
    ("open to students" : String).length ≤ 503 :=
  (section_truncation_bound ["eligibility"] "Eligibility: open to students"
    "open to students" (by decide)).1

/-- C7 counterexample: on the text Agency: N/A the first agency pattern
matches and captures N/A, yet the final agency is the host-based fallback,
not the captured remainder of the line. -/
theorem agency_resolution_counterexample :
    agencyResolve "Agency: N/A".toList = some "N/A" ∧
    (FOAIngester.extract_grants_gov ⟨"https://www.grants.gov/x", "www.grants.gov"⟩ hashModel
        ⟨none, none, "Agency: N/A"⟩).agency = "Grants.gov" ∧
    ("Grants.gov" : String) ≠ "N/A" :=
  ⟨by decide, by decide, by decide⟩

/-- C7 amended: the ordered label patterns are tried case-insensitively with
first match winning and the stripped remainder of the line becomes the
agency, except that a captured value equal to the sentinel N/A is treated as
unresolved; on no match, or on a captured N/A, the agency falls back to the
host lookup over grants.gov, nsf.gov and nih.gov with final default Unknown
Agency. -/
theorem agency_resolution_amended :
    (∀ (ing : FOAIngester) (pyhash : String → Int) (h : Html) (a : String),
      agencyResolve h.bodyText.toList = some a → a ≠ "N/A" →
      (FOAIngester.extract_grants_gov ing pyhash h).agency = a) ∧
    (∀ (ing : FOAIngester) (pyhash : String → Int) (h : Html),
      agencyResolve h.bodyText.toList = some "N/A" →
      (FOAIngester.extract_grants_gov ing pyhash h).agency =
        infer_agency_from_url ing.domain) ∧
    (∀ (ing : FOAIngester) (pyhash : String → Int) (h : Html),
      agencyResolve h.bodyText.toList = none →
      (FOAIngester.extract_grants_gov ing pyhash h).agency =
        infer_agency_from_url ing.domain) ∧
    (∀ d : String,
      (pyIn "grants.gov" d = true → infer_agency_from_url d = "Grants.gov") ∧
      (pyIn "grants.gov" d = false → pyIn "nsf.gov" d = true →
        infer_agency_from_url d = "National Science Foundation (NSF)") ∧
      (pyIn "grants.gov" d = false → pyIn "nsf.gov" d = false → pyIn "nih.gov" d = true →
        infer_agency_from_url d = "National Institutes of Health (NIH)") ∧
      (pyIn "grants.gov" d = false → pyIn "nsf.gov" d = false → pyIn "nih.gov" d = false →
        infer_agency_from_url d = "Unknown Agency")) := by
  refine ⟨?_, ?_, ?_, ?_⟩
  · intro ing ph h a hres hne
    have hres' : agencyResolve h.bodyText.data = some a := hres
    simp [FOAIngester.extract_grants_gov, hres', hne]
  · intro ing ph h hres
    have hres' : agencyResolve h.bodyText.data = some "N/A" := hres
    simp [FOAIngester.extract_grants_gov, hres']
  · intro ing ph h hres
    have hres' : agencyResolve h.bodyText.data = none := hres
    simp [FOAIngester.extract_grants_gov, hres']
  · intro d
    refine ⟨fun h1 => ?_, fun h1 h2 => ?_, fun h1 h2 h3 => ?_, fun h1 h2 h3 => ?_⟩
    · simp [infer_agency_from_url, h1]
    · simp [infer_agency_from_url, h1, h2]
    · simp [infer_agency_from_url, h1, h2, h3]
    · simp [infer_agency_from_url, h1, h2, h3]

/-- Witness for C7's amended statement at concrete inputs. -/
theorem agency_resolution_amended_witness :
    (FOAIngester.extract_grants_gov ⟨"u", "host"⟩ hashModel
        ⟨none, none, "Funding Agency: DOE"⟩).agency = "DOE" ∧
    (FOAIngester.extract_grants_gov ⟨"https://www.grants.gov/x", "www.grants.gov"⟩ hashModel
        ⟨none, none, "Agency: N/A"⟩).agency = infer_agency_from_url "www.grants.gov" ∧
    (FOAIngester.extract_grants_gov ⟨"u", "example.com"⟩ hashModel
        ⟨none, none, "hello"⟩).agency = infer_agency_from_url "example.com" ∧
    infer_agency_from_url "www.nih.gov" = "National Institutes of Health (NIH)" :=
  ⟨agency_resolution_amended.1 ⟨"u", "host"⟩ hashModel ⟨none, none, "Funding Agency: DOE"⟩
      "DOE" (by decide) (by decide),
   agency_resolution_amended.2.1 ⟨"https://www.grants.gov/x", "www.grants.gov"⟩ hashModel
      ⟨none, none, "Agency: N/A"⟩ (by decide),
   agency_resolution_amended.2.2.1 ⟨"u", "example.com"⟩ hashModel ⟨none, none, "hello"⟩
      (by decide),
   (agency_resolution_amended.2.2.2 "www.nih.gov").2.2.1 (by decide) (by decide) (by decide)⟩

/-- Concrete record used to witness the tagging claims. -/
def sampleRecA : FOARecord :=
  ⟨"i", "t", "A", "N/A", "N/A", "computational", "d", "N/A", "u", none⟩

/-- The same record with a keyword occurrence appended to its eligibility
text. -/
def sampleRecB : FOARecord :=
  ⟨"i", "t", "A", "N/A", "N/A", "computational science", "d", "N/A", "u", none⟩

/-- C4: tagging is monotone in keyword presence (growing the scanned text
around its old content, with the agency unchanged, never removes a tag and
may only add tags) and idempotent (tagging an already-tagged record computes
the same tag sets, since the tagger reads only the scalar fields). -/
theorem tagging_monotone_idempotent :
    (∀ (r r' : FOARecord), r.agency = r'.agency →
      (SemanticTagger.tagText r).toList <:+: (SemanticTagger.tagText r').toList →
      ∀ (tg tg' : SemTags), (SemanticTagger.tag r).semantic_tags = some tg →
        (SemanticTagger.tag r').semantic_tags = some tg' →
        tg.research_domains ⊆ tg'.research_domains ∧ tg.methods ⊆ tg'.methods ∧
        tg.populations ⊆ tg'.populations ∧ tg.sponsor_themes ⊆ tg'.sponsor_themes) ∧
    (∀ r : FOARecord, SemanticTagger.tag (SemanticTagger.tag r) = SemanticTagger.tag r) := by
  constructor
  · intro r r' hag hinf tg tg' htg htg'
    have e1 : SemanticTagger.computeTags r = tg := by simpa [SemanticTagger.tag] using htg
    have e2 : SemanticTagger.computeTags r' = tg' := by simpa [SemanticTagger.tag] using htg'
    subst e1
    subst e2
    have hcat : ∀ table : List (String × List String),
        SemanticTagger.tagCategory (SemanticTagger.tagText r) table ⊆
          SemanticTagger.tagCategory (SemanticTagger.tagText r') table := by
      intro table x hx
      rw [SemanticTagger.tagCategory, List.mem_filterMap] at hx ⊢
      obtain ⟨p, hp, hcond⟩ := hx
      by_cases hc : p.2.any (fun k => pyIn k (SemanticTagger.tagText r)) = true
      case neg => simp [hc] at hcond
      case pos =>
        rw [if_pos hc] at hcond
        refine ⟨p, hp, ?_⟩
        have hc' : p.2.any (fun k => pyIn k (SemanticTagger.tagText r')) = true := by
          rw [List.any_eq_true] at hc ⊢
          obtain ⟨k, hk, hkin⟩ := hc
          exact ⟨k, hk, pyIn_mono hkin hinf⟩
        rw [if_pos hc']
        exact hcond
    refine ⟨hcat _, hcat _, hcat _, ?_⟩
    show SemanticTagger.sponsorFor r.agency ⊆ SemanticTagger.sponsorFor r'.agency
    rw [hag]
    exact List.Subset.refl _
  · intro r
    rfl

/-- Witness for C4 at concrete records; the infix hypothesis is discharged
through charsContain. -/
theorem tagging_monotone_idempotent_witness :
    (SemanticTagger.computeTags sampleRecA).methods ⊆
      (SemanticTagger.computeTags sampleRecB).methods ∧
    SemanticTagger.tag (SemanticTagger.tag sampleRecA) = SemanticTagger.tag sampleRecA :=
  ⟨(tagging_monotone_idempotent.1 sampleRecA sampleRecB rfl
      ((charsContain_iff _ _).mp (by decide)) _ _ rfl rfl).2.1,
   tagging_monotone_idempotent.2 sampleRecA⟩

/-- C1: for every input, the tagged record viewed as a dict carries exactly
the ten declared field names (so every declared field is present), and each
scalar field whose extraction step resolved nothing equals exactly the
sentinel N/A, for both the generic and the NSF profile. -/
theorem record_fields_present_and_na (ing : FOAIngester) (pyhash : String → Int) (h : Html) :
    ((toDict (SemanticTagger.tag (FOAIngester.extract_grants_gov ing pyhash h))).map Prod.fst =
      declaredFields) ∧
    ((toDict (SemanticTagger.tag (FOAIngester.extract_nsf ing pyhash h))).map Prod.fst =
      declaredFields) ∧
    (h.h1Text = none → h.titleText = none →
      (SemanticTagger.tag (FOAIngester.extract_grants_gov ing pyhash h)).title = "N/A" ∧
      (SemanticTagger.tag (FOAIngester.extract_nsf ing pyhash h)).title = "N/A") ∧
    ((scanDates genericDateLabels h.bodyText.toList).openDate = none →
      (SemanticTagger.tag (FOAIngester.extract_grants_gov ing pyhash h)).open_date = "N/A") ∧
    ((scanDates genericDateLabels h.bodyText.toList).closeDate = none →
      (SemanticTagger.tag (FOAIngester.extract_grants_gov ing pyhash h)).close_date = "N/A") ∧
    (extract_section ["eligibility", "eligible", "qualification"] h.bodyText = none →
      (SemanticTagger.tag (FOAIngester.extract_grants_gov ing pyhash h)).eligibility_text =
        "N/A") ∧
    (extract_section ["description", "summary", "overview", "purpose"] h.bodyText = none →
      (SemanticTagger.tag (FOAIngester.extract_grants_gov ing pyhash h)).program_description =
        "N/A") ∧
    (awardSearch h.bodyText = none →
      (SemanticTagger.tag (FOAIngester.extract_grants_gov ing pyhash h)).award_range = "N/A") ∧
    ((SemanticTagger.tag (FOAIngester.extract_nsf ing pyhash h)).open_date = "N/A") ∧
    (scanNSFDates nsfDateLabels h.bodyText.toList = none →
      (SemanticTagger.tag (FOAIngester.extract_nsf ing pyhash h)).close_date = "N/A") ∧
    (extract_section ["eligibility", "eligible", "who may"] h.bodyText = none →
      (SemanticTagger.tag (FOAIngester.extract_nsf ing pyhash h)).eligibility_text = "N/A") ∧
    (extract_section ["description", "summary", "overview", "synopsis"] h.bodyText = none →
      (SemanticTagger.tag (FOAIngester.extract_nsf ing pyhash h)).program_description =
        "N/A") ∧
    (awardSearch h.bodyText = none →
      (SemanticTagger.tag (FOAIngester.extract_nsf ing pyhash h)).award_range = "N/A") := by
  refine ⟨rfl, rfl, ?_, ?_, ?_, ?_, ?_, ?_, rfl, ?_, ?_, ?_, ?_⟩
  · intro h1 h2
    constructor <;>
      simp [SemanticTagger.tag, FOAIngester.extract_grants_gov, FOAIngester.extract_nsf,
        extractTitle, h1, h2]
  · intro hx
    have hx' : (scanDates genericDateLabels h.bodyText.data).openDate = none := hx
    simp [SemanticTagger.tag, FOAIngester.extract_grants_gov, pyOrOpt, hx']
  · intro hx
    have hx' : (scanDates genericDateLabels h.bodyText.data).closeDate = none := hx
    simp [SemanticTagger.tag, FOAIngester.extract_grants_gov, pyOrOpt, hx']
  · intro hx
    simp [SemanticTagger.tag, FOAIngester.extract_grants_gov, pyOrOpt, hx]
  · intro hx
    simp [SemanticTagger.tag, FOAIngester.extract_grants_gov, pyOrOpt, hx]
  · intro hx
    simp [SemanticTagger.tag, FOAIngester.extract_grants_gov, pyOrOpt, hx]
  · intro hx
    have hx' : scanNSFDates nsfDateLabels h.bodyText.data = none := hx
    simp [SemanticTagger.tag, FOAIngester.extract_nsf, pyOrOpt, hx']
  · intro hx
    simp [SemanticTagger.tag, FOAIngester.extract_nsf, pyOrOpt, hx]
  · intro hx
    simp [SemanticTagger.tag, FOAIngester.extract_nsf, pyOrOpt, hx]
  · intro hx
    simp [SemanticTagger.tag, FOAIngester.extract_nsf, pyOrOpt, hx]

/-- Witness for C1 on an empty page: every extraction step is unresolved and
every affected field is the sentinel. -/
theorem record_fields_present_and_na_witness :
    ((toDict (SemanticTagger.tag (FOAIngester.extract_grants_gov
        ⟨"http://example.com", "example.com"⟩ hashModel ⟨none, none, ""⟩))).map Prod.fst =
      declaredFields) ∧
    (SemanticTagger.tag (FOAIngester.extract_grants_gov ⟨"http://example.com", "example.com"⟩
        hashModel ⟨none, none, ""⟩)).title = "N/A" ∧
    (SemanticTagger.tag (FOAIngester.extract_grants_gov ⟨"http://example.com", "example.com"⟩
        hashModel ⟨none, none, ""⟩)).open_date = "N/A" ∧
    (SemanticTagger.tag (FOAIngester.extract_grants_gov ⟨"http://example.com", "example.com"⟩
        hashModel ⟨none, none, ""⟩)).close_date = "N/A" ∧
    (SemanticTagger.tag (FOAIngester.extract_grants_gov ⟨"http://example.com", "example.com"⟩
        hashModel ⟨none, none, ""⟩)).eligibility_text = "N/A" ∧
    (SemanticTagger.tag (FOAIngester.extract_grants_gov ⟨"http://example.com", "example.com"⟩
        hashModel ⟨none, none, ""⟩)).program_description = "N/A" ∧
    (SemanticTagger.tag (FOAIngester.extract_grants_gov ⟨"http://example.com", "example.com"⟩
        hashModel ⟨none, none, ""⟩)).award_range = "N/A" ∧
    (SemanticTagger.tag (FOAIngester.extract_nsf ⟨"http://example.com", "example.com"⟩
        hashModel ⟨none, none, ""⟩)).open_date = "N/A" ∧
    (SemanticTagger.tag (FOAIngester.extract_nsf ⟨"http://example.com", "example.com"⟩
        hashModel ⟨none, none, ""⟩)).close_date = "N/A" := by
  obtain ⟨a1, a2, a3, a4, a5, a6, a7, a8, a9, a10, a11, a12, a13⟩ :=
    record_fields_present_and_na ⟨"http://example.com", "example.com"⟩ hashModel
      ⟨none, none, ""⟩
  exact ⟨a1, (a3 rfl rfl).1, a4 (by decide), a5 (by decide), a6 (by decide), a7 (by decide),
    a8 (by decide), a9, a10 (by decide)⟩
